import Mathlib

/-!
Shallow embedding of the daily-life-recorder persistence layer: the
Express server (entries/settings CRUD, export/import endpoints) and the
React client cache (the `AppProvider` context together with
`DataService`).  Server durable state is the pair of JSON files; write
outcomes of `writeJSONFile` are modelled by explicit boolean parameters,
fetch outcomes seen by the client by `Except Unit`.
-/

/-- One journal record (`Entry` in `types.ts`).  The `date` field is
modelled as the millisecond timestamp whose ISO-8601 rendering the code
stores (`new Date().toISOString()` is injective and order-preserving on
milliseconds); `id` is the decimal string the server derives from
`Date.now()`. -/
structure Entry where
  id : String
  date : Nat
  content : String
  mood : String
  deriving Repr, DecidableEq

/-- A JSON merge patch for an entry (the TS type is a record with all
fields optional): each field is present or absent and is spread over an
existing record by `applyPatch`. -/
structure EntryPatch where
  id : Option String := none
  date : Option Nat := none
  content : Option String := none
  mood : Option String := none
  deriving Repr, DecidableEq

/-- JS object spread `\x7b ...e, ...u \x7d`: every field present in the
patch overwrites the record's field; absent fields keep the record's
value. -/
def applyPatch (e : Entry) (u : EntryPatch) : Entry where
  id := u.id.getD e.id
  date := u.date.getD e.date
  content := u.content.getD e.content
  mood := u.mood.getD e.mood

/-- The nested custom-text block of the fully-populated client settings
record (`Settings` in `types.ts`). -/
structure CustomTexts where
  appTitle : String
  appSubtitle : String
  heroTitle : String
  heroSubtitle : String
  startButtonText : String
  deriving Repr, DecidableEq

/-- The fully-populated client settings record (`Settings` in
`types.ts`). -/
structure Settings where
  theme : String
  autoSave : Bool
  showMoodOnCalendar : Bool
  customTexts : CustomTexts
  deriving Repr, DecidableEq

/-- A custom-text JSON object as stored on disk or sent over the wire:
any field may be absent (the settings file is schemaless). -/
structure CustomTextsObj where
  appTitle : Option String := none
  appSubtitle : Option String := none
  heroTitle : Option String := none
  heroSubtitle : Option String := none
  startButtonText : Option String := none
  deriving Repr, DecidableEq

/-- A settings JSON object as stored on disk or sent over the wire: any
field may be absent. -/
structure SettingsObj where
  theme : Option String := none
  autoSave : Option Bool := none
  showMoodOnCalendar : Option Bool := none
  customTexts : Option CustomTextsObj := none
  deriving Repr, DecidableEq

/-- `defaultSettings` of the client (`AppProvider`). -/
def defaultSettings : Settings where
  theme := "light"
  autoSave := true
  showMoodOnCalendar := true
  customTexts :=
    { appTitle := "生活记录器"
      appSubtitle := "记录美好时刻，追踪心情变化，反思人生旅程"
      heroTitle := "你的生活，你的故事"
      heroSubtitle := "记录美好时刻，追踪心情变化，反思人生旅程"
      startButtonText := "开始写作" }

/-- The server's hardcoded settings default, used by `GET /api/settings`
and `GET /api/export` as the `readJSONFile` fallback: only three fields,
no `customTexts`. -/
def serverDefaultSettings : SettingsObj where
  theme := some "light"
  autoSave := some true
  showMoodOnCalendar := some true

/-- Server durable state: the two JSON data files.  `none` means the
file is absent or unreadable, in which case `readJSONFile` falls back to
the default the caller passes. -/
structure StoreState where
  entriesFile : Option (List Entry) := none
  settingsFile : Option SettingsObj := none
  deriving Repr, DecidableEq

/-- `GET /api/entries`: `readJSONFile(ENTRIES_FILE, [])`. -/
def listEntries (s : StoreState) : List Entry :=
  s.entriesFile.getD []

/-- `GET /api/settings`: `readJSONFile(SETTINGS_FILE, defaults)` with the
three-field server default; the stored object is returned verbatim when
the file is readable. -/
def getSettings (s : StoreState) : SettingsObj :=
  s.settingsFile.getD serverDefaultSettings

/-- `POST /api/entries` (bulk save): write the request body verbatim.
`wOk` models whether `writeJSONFile` commits; the response boolean is
`response.ok` as `DataService.saveEntries` sees it. -/
def saveEntries (es : List Entry) (wOk : Bool) (s : StoreState) :
    Bool × StoreState :=
  if wOk then (true, { s with entriesFile := some es }) else (false, s)

/-- `POST /api/entries/add`: build
`\x7b id: Date.now().toString(), date: now, content: "", mood: "neutral",
...entryData \x7d` (the request body is spread over the defaults), then
`unshift` it onto the stored list.  Returns the created entry on
success, `none` on write failure (HTTP 500, `DataService.addEntry`
yields `null`). -/
def addEntry (now : Nat) (u : EntryPatch) (wOk : Bool) (s : StoreState) :
    Option Entry × StoreState :=
  let newEntry := applyPatch
    { id := toString now, date := now, content := "", mood := "neutral" } u
  if wOk then
    (some newEntry, { s with entriesFile := some (newEntry :: listEntries s) })
  else
    (none, s)

/-- `findIndex` followed by in-place replacement of the first record
whose id matches, with `entries[i] = \x7b ...entries[i], ...updates \x7d`;
`none` when no record matches. -/
def updateFirst (eid : String) (u : EntryPatch) : List Entry → Option (List Entry)
  | [] => none
  | e :: rest =>
      if e.id = eid then some (applyPatch e u :: rest)
      else (updateFirst eid u rest).map (fun tail => e :: tail)

/-- `PUT /api/entries/:id`: HTTP 404 (the client sees `false`) when the
id is absent — no write is attempted; otherwise replace the first match
and persist. -/
def updateEntry (eid : String) (u : EntryPatch) (wOk : Bool) (s : StoreState) :
    Bool × StoreState :=
  match updateFirst eid u (listEntries s) with
  | none => (false, s)
  | some updated =>
      if wOk then (true, { s with entriesFile := some updated }) else (false, s)

/-- `DELETE /api/entries/:id`: filter the id out
(`entries.filter(entry => entry.id !== entryId)`) and persist the
remainder, whether or not anything matched. -/
def deleteEntry (eid : String) (wOk : Bool) (s : StoreState) :
    Bool × StoreState :=
  let filtered := (listEntries s).filter (fun e => e.id ≠ eid)
  if wOk then (true, { s with entriesFile := some filtered }) else (false, s)

/-- `POST /api/settings`: persist the request body as-is. -/
def saveSettings (v : SettingsObj) (wOk : Bool) (s : StoreState) :
    Bool × StoreState :=
  if wOk then (true, { s with settingsFile := some v }) else (false, s)

/-- The export envelope `\x7b entries, settings, exportDate \x7d`. -/
structure BackupEnvelope where
  entries : List Entry
  settings : SettingsObj
  exportDate : Nat
  deriving Repr, DecidableEq

/-- `GET /api/export`: current entries and settings (each read with its
default) wrapped with a fresh timestamp; no mutation. -/
def exportSnapshot (now : Nat) (s : StoreState) : BackupEnvelope where
  entries := listEntries s
  settings := getSettings s
  exportDate := now

/-- A parsed import request body: each top-level field may be absent
(an absent or JSON-falsy field makes the corresponding
`if (importData.x)` guard skip the write). -/
structure ImportPayload where
  entries : Option (List Entry) := none
  settings : Option SettingsObj := none
  deriving Repr, DecidableEq

/-- Re-parsing an exported envelope as an import body: both fields come
out present (arrays and objects, even empty ones, are truthy in JS). -/
def envelopeToPayload (env : BackupEnvelope) : ImportPayload where
  entries := some env.entries
  settings := some env.settings

/-- The handler body of `POST /api/import`: write each present field,
ignoring the write results (`writeJSONFile`'s boolean is discarded).
`wE` and `wS` are the outcomes of the two writes. -/
def importSnapshot (payload : ImportPayload) (wE wS : Bool) (s : StoreState) :
    StoreState :=
  let s1 :=
    match payload.entries with
    | some es => if wE then { s with entriesFile := some es } else s
    | none => s
  match payload.settings with
  | some v => if wS then { s1 with settingsFile := some v } else s1
  | none => s1

/-- `POST /api/import` as the client observes it: `none` means the body
was not valid JSON (`express.json()` rejects with 400 before the handler
runs); a parsed body always gets HTTP 200 (`response.ok = true`). -/
def importEndpoint (body : Option ImportPayload) (wE wS : Bool) (s : StoreState) :
    Bool × StoreState :=
  match body with
  | none => (false, s)
  | some payload => (true, importSnapshot payload wE wS s)

/-- `DataService.getEntries`: any fetch/HTTP failure is caught and
replaced by the empty list. -/
def dsGetEntries : Except Unit (List Entry) → List Entry
  | .ok es => es
  | .error _ => []

/-- Inject a fully-populated custom-text block into the wire shape. -/
def textsToObj (t : CustomTexts) : CustomTextsObj where
  appTitle := some t.appTitle
  appSubtitle := some t.appSubtitle
  heroTitle := some t.heroTitle
  heroSubtitle := some t.heroSubtitle
  startButtonText := some t.startButtonText

/-- Inject a fully-populated settings record into the wire shape. -/
def settingsToObj (v : Settings) : SettingsObj where
  theme := some v.theme
  autoSave := some v.autoSave
  showMoodOnCalendar := some v.showMoodOnCalendar
  customTexts := some (textsToObj v.customTexts)

/-- The hardcoded fallback object in the catch block of
`DataService.getSettings`. -/
def clientFallbackSettings : Settings where
  theme := "light"
  autoSave := true
  showMoodOnCalendar := true
  customTexts :=
    { appTitle := "生活记录器"
      appSubtitle := "记录美好时刻，追踪心情变化，反思人生旅程"
      heroTitle := "你的生活，你的故事"
      heroSubtitle := "记录美好时刻，追踪心情变化，反思人生旅程"
      startButtonText := "开始写作" }

/-- `DataService.getSettings`: the server's JSON on success, the
hardcoded full fallback on any fetch/HTTP failure. -/
def dsGetSettings : Except Unit SettingsObj → SettingsObj
  | .ok v => v
  | .error _ => settingsToObj clientFallbackSettings

/-- The nested part of the client-side merge in `loadData`:
`customTexts: \x7b ...defaultSettings.customTexts, ...data.customTexts \x7d`
(spreading an absent object spreads nothing). -/
def mergeTexts (d : CustomTexts) (o : Option CustomTextsObj) : CustomTexts :=
  match o with
  | none => d
  | some t =>
      { appTitle := t.appTitle.getD d.appTitle
        appSubtitle := t.appSubtitle.getD d.appSubtitle
        heroTitle := t.heroTitle.getD d.heroTitle
        heroSubtitle := t.heroSubtitle.getD d.heroSubtitle
        startButtonText := t.startButtonText.getD d.startButtonText }

/-- The client-side merge in `loadData`:
`\x7b ...defaultSettings, ...data, customTexts: ... \x7d` with the nested
custom-text merge. -/
def clientMergeSettings (d : Settings) (o : SettingsObj) : Settings where
  theme := o.theme.getD d.theme
  autoSave := o.autoSave.getD d.autoSave
  showMoodOnCalendar := o.showMoodOnCalendar.getD d.showMoodOnCalendar
  customTexts := mergeTexts d.customTexts o.customTexts

/-- The client mirror: the `AppProvider` state that mirrors the Store. -/
structure Mirror where
  entries : List Entry
  settings : Settings
  deriving Repr, DecidableEq

/-- `loadData`: fetch entries and settings (each already
failure-recovered inside `DataService`, so the `Promise.all` never
rejects) and replace the mirror.  `m` is the prior mirror being
replaced. -/
def loadData (m : Mirror) (ef : Except Unit (List Entry))
    (sf : Except Unit SettingsObj) : Mirror where
  entries := dsGetEntries ef
  settings := clientMergeSettings defaultSettings (dsGetSettings sf)

/-- The cache-side merge `AppProvider.updateEntry` applies after a
successful PUT: map over the mirror, spreading the updates over every
record whose id matches. -/
def clientUpdateMirror (eid : String) (u : EntryPatch) (entries : List Entry) :
    List Entry :=
  entries.map (fun e => if e.id = eid then applyPatch e u else e)

/-- The alert `AppProvider.importData` shows, determined by the boolean
result of `DataService.importData` (that is, by `response.ok`). -/
def importAlertMessage (ok : Bool) : String :=
  if ok then "数据导入成功！" else "导入数据失败，请检查文件格式"

/-- A sample stored record used by the concrete instances below. -/
def sampleEntry : Entry where
  id := "1"
  date := 0
  content := "a"
  mood := "neutral"

/-- A store holding exactly `sampleEntry`. -/
def sampleStore : StoreState where
  entriesFile := some [sampleEntry]
  settingsFile := none

/-- A store with both files absent. -/
def emptyStore : StoreState where
  entriesFile := none
  settingsFile := none

/-- A record whose id is the decimal rendering of timestamp 5, used to
exhibit the id collision in `addEntry`. -/
def clashEntry : Entry where
  id := "5"
  date := 0
  content := "a"
  mood := "happy"

/-- A store holding exactly `clashEntry`. -/
def clashStore : StoreState where
  entriesFile := some [clashEntry]
  settingsFile := none

/-- A non-empty client mirror. -/
def sampleMirror : Mirror where
  entries := [sampleEntry]
  settings := defaultSettings

/-! ### Helper lemmas -/

theorem applyPatch_id_of_none {u : EntryPatch} (e : Entry) (hid : u.id = none) :
    (applyPatch e u).id = e.id := by
  simp [applyPatch, hid]

theorem applyPatch_date_of_none {u : EntryPatch} (e : Entry) (hdate : u.date = none) :
    (applyPatch e u).date = e.date := by
  simp [applyPatch, hdate]

theorem updateFirst_map_key {eid : String} {u : EntryPatch}
    (hid : u.id = none) (hdate : u.date = none) (l : List Entry) :
    ∀ l', updateFirst eid u l = some l' →
      l'.map (fun e => (e.id, e.date)) = l.map (fun e => (e.id, e.date)) := by
  induction l with
  | nil => intro l' h; simp [updateFirst] at h
  | cons e rest ih =>
      intro l' h
      by_cases he : e.id = eid
      · rw [updateFirst, if_pos he] at h
        cases h
        simp [applyPatch_id_of_none e hid, applyPatch_date_of_none e hdate]
      · rw [updateFirst, if_neg he] at h
        cases hrest : updateFirst eid u rest with
        | none => rw [hrest] at h; simp at h
        | some tail =>
            rw [hrest] at h
            simp only [Option.map_some', Option.some.injEq] at h
            subst h
            simp [ih tail hrest]

theorem updateFirst_eq_none (eid : String) (u : EntryPatch) (l : List Entry)
    (h : ∀ e ∈ l, e.id ≠ eid) : updateFirst eid u l = none := by
  induction l with
  | nil => rfl
  | cons e rest ih =>
      rw [updateFirst, if_neg (h e (by simp)),
        ih (fun x hx => h x (List.mem_cons_of_mem e hx))]
      rfl

/-! ### C1 -/

/-- C1 (amended): an update merges all fields present in the body over
the matched record, `id` and `date` included; whenever the body omits
`id` and `date` (as every in-repo caller does), the `(id, date)` keys of
every record are unchanged, both in the Store after a PUT and in the
client mirror after its local merge. -/
theorem C1_update_preserves_id_date (eid : String) (u : EntryPatch) (wOk : Bool)
    (s : StoreState) (es : List Entry) (hid : u.id = none) (hdate : u.date = none) :
    (listEntries (updateEntry eid u wOk s).2).map (fun e => (e.id, e.date))
      = (listEntries s).map (fun e => (e.id, e.date))
    ∧ (clientUpdateMirror eid u es).map (fun e => (e.id, e.date))
      = es.map (fun e => (e.id, e.date)) := by
  constructor
  · unfold updateEntry
    cases hu : updateFirst eid u (listEntries s) with
    | none => rfl
    | some updated =>
        cases wOk with
        | false => rfl
        | true =>
            simp only [listEntries, Option.getD_some]
            exact updateFirst_map_key hid hdate (listEntries s) updated hu
  · unfold clientUpdateMirror
    induction es with
    | nil => rfl
    | cons e rest ih =>
        by_cases he : e.id = eid
        · simp only [List.map_cons, if_pos he, ih,
            applyPatch_id_of_none e hid, applyPatch_date_of_none e hdate]
        · simp only [List.map_cons, if_neg he, ih]

/-- C1 witness: concrete instance at `sampleStore` with a content-only
update body. -/
theorem C1_update_preserves_id_date_witness :
    (listEntries (updateEntry "1" { content := some "x" } true sampleStore).2).map
        (fun e => (e.id, e.date))
      = (listEntries sampleStore).map (fun e => (e.id, e.date))
    ∧ (clientUpdateMirror "1" { content := some "x" } [sampleEntry]).map
        (fun e => (e.id, e.date))
      = [sampleEntry].map (fun e => (e.id, e.date)) :=
  C1_update_preserves_id_date "1" { content := some "x" } true sampleStore
    [sampleEntry] rfl rfl

/-- C1 counterexample: a PUT whose body contains a `date` key overwrites
the stored record's date (timestamp 0 becomes 7), so `date` is not
preserved when the body carries it. -/
theorem C1_counterexample :
    (listEntries (updateEntry "1" { date := some 7 } true sampleStore).2).map
        Entry.date = [7]
    ∧ sampleEntry.date = 0 := by
  constructor
  · rfl
  · rfl

/-! ### C2 -/

theorem applyPatch_defaults_of_none {u : EntryPatch} (now : Nat)
    (hid : u.id = none) (hdate : u.date = none) :
    applyPatch { id := toString now, date := now, content := "", mood := "neutral" } u
      = { id := toString now, date := now, content := u.content.getD "",
          mood := u.mood.getD "neutral" } := by
  simp [applyPatch, hid, hdate]

/-- C2 (amended): when the request body carries no `id` and no `date`
key, `addEntry` returns the entry whose `id` is the decimal rendering of
the current timestamp, whose `date` is the current timestamp, and whose
`content`/`mood` are the caller's values merged over the defaults `""`
and `"neutral"`; that entry is prepended to the stored collection.  (A
body that does carry `id` or `date` overrides the server-assigned
values, since the request body is spread last.) -/
theorem C2_add_assigns_server_fields (now : Nat) (u : EntryPatch) (s : StoreState)
    (hid : u.id = none) (hdate : u.date = none) :
    (addEntry now u true s).1
      = some { id := toString now, date := now, content := u.content.getD "",
               mood := u.mood.getD "neutral" }
    ∧ listEntries (addEntry now u true s).2
      = { id := toString now, date := now, content := u.content.getD "",
          mood := u.mood.getD "neutral" } :: listEntries s := by
  have hA := applyPatch_defaults_of_none (u := u) now hid hdate
  constructor
  · simp [addEntry, hA]
  · simp [addEntry, listEntries, hA]

/-- C2 witness: concrete instance adding `content := "hello"`,
`mood := "happy"` to an empty store at timestamp 5. -/
theorem C2_add_assigns_server_fields_witness :
    (addEntry 5 { content := some "hello", mood := some "happy" } true emptyStore).1
      = some { id := toString 5, date := 5, content := (some "hello").getD "",
               mood := (some "happy").getD "neutral" }
    ∧ listEntries
        (addEntry 5 { content := some "hello", mood := some "happy" } true emptyStore).2
      = { id := toString 5, date := 5, content := (some "hello").getD "",
          mood := (some "happy").getD "neutral" } :: listEntries emptyStore :=
  C2_add_assigns_server_fields 5 { content := some "hello", mood := some "happy" }
    emptyStore rfl rfl

/-- C2 counterexample: a request body containing an `id` key overrides
the server-assigned id — `addEntry` at timestamp 0 returns an entry with
id `"hack"`, not the fresh id `"0"`. -/
theorem C2_counterexample :
    ((addEntry 0 { id := some "hack" } true emptyStore).1.map Entry.id) = some "hack"
    ∧ "hack" ≠ toString 0 := by
  constructor
  · rfl
  · decide

/-! ### C3 -/

theorem toDigitsCore_ne_nil (b : Nat) (fuel : Nat) :
    ∀ (n : Nat) (ds : List Char), ds ≠ [] → Nat.toDigitsCore b fuel n ds ≠ [] := by
  induction fuel with
  | zero => intro n ds h; simpa [Nat.toDigitsCore] using h
  | succ fuel ih =>
      intro n ds h
      simp only [Nat.toDigitsCore]
      by_cases hb : n / b = 0
      · simp [hb]
      · simpa [hb] using ih (n / b) (Nat.digitChar (n % b) :: ds) (by simp)

theorem natRepr_ne_empty (n : Nat) : Nat.repr n ≠ "" := by
  have h : Nat.toDigits 10 n ≠ [] := by
    by_cases hb : n / 10 = 0
    · simp [Nat.toDigits, Nat.toDigitsCore, hb]
    · simpa [Nat.toDigits, Nat.toDigitsCore, hb] using
        toDigitsCore_ne_nil 10 n (n / 10) [Nat.digitChar (n % 10)] (by simp)
  intro he
  exact h (congrArg String.data he)

theorem natToString_ne_empty (n : Nat) : toString n ≠ "" :=
  natRepr_ne_empty n

/-- C3 (amended): for a body carrying only `content`/`mood`, and
provided the decimal rendering of the current timestamp does not already
occur as an id in the collection (`Date.now().toString()` offers no
other freshness guarantee), `addEntry` returns an entry with a non-empty
id that is unique in the new collection and whose date is not later than
`now`, and the new collection is the old one with the new entry
prepended (one more record, prior relative order preserved). -/
theorem C3_add_fresh_unique_prepended (now : Nat) (u : EntryPatch) (s : StoreState)
    (hid : u.id = none) (hdate : u.date = none)
    (hfresh : ∀ e ∈ listEntries s, e.id ≠ toString now) :
    ∃ E, (addEntry now u true s).1 = some E
      ∧ E.id ≠ ""
      ∧ ((listEntries (addEntry now u true s).2).filter
          (fun e => e.id = E.id)).length = 1
      ∧ E.date ≤ now
      ∧ (listEntries (addEntry now u true s).2).length
          = (listEntries s).length + 1
      ∧ listEntries (addEntry now u true s).2
          = applyPatch
              { id := toString now, date := now, content := "", mood := "neutral" }
              u :: listEntries s := by
  have hA := applyPatch_defaults_of_none (u := u) now hid hdate
  refine ⟨applyPatch
    { id := toString now, date := now, content := "", mood := "neutral" }
    u, rfl, ?_, ?_, ?_, ?_, ?_⟩
  · rw [hA]
    exact natToString_ne_empty now
  · have hlist : listEntries (addEntry now u true s).2
        = applyPatch
            { id := toString now, date := now, content := "", mood := "neutral" }
            u :: listEntries s := by
      simp [addEntry, listEntries]
    rw [hlist, hA]
    simp only [List.filter_cons]
    have hrest : (listEntries s).filter
        (fun e => e.id =
          ({ id := toString now, date := now, content := u.content.getD "",
             mood := u.mood.getD "neutral" } : Entry).id)
        = [] := by
      rw [List.filter_eq_nil_iff]
      intro e he
      simpa using hfresh e he
    simp [hrest]
  · rw [hA]
  · simp [addEntry, listEntries]
  · simp [addEntry, listEntries]

/-- C3 witness: concrete instance at `sampleStore` (one entry with id
`"1"`) adding at timestamp 5 with a content/mood-only body. -/
theorem C3_add_fresh_unique_prepended_witness :
    ∃ E, (addEntry 5 { content := some "x", mood := some "happy" } true sampleStore).1
        = some E
      ∧ E.id ≠ ""
      ∧ ((listEntries (addEntry 5 { content := some "x", mood := some "happy" }
          true sampleStore).2).filter (fun e => e.id = E.id)).length = 1
      ∧ E.date ≤ 5
      ∧ (listEntries (addEntry 5 { content := some "x", mood := some "happy" }
          true sampleStore).2).length = (listEntries sampleStore).length + 1
      ∧ listEntries (addEntry 5 { content := some "x", mood := some "happy" }
          true sampleStore).2
        = applyPatch
            { id := toString 5, date := 5, content := "", mood := "neutral" }
            { content := some "x", mood := some "happy" }
          :: listEntries sampleStore :=
  C3_add_fresh_unique_prepended 5 { content := some "x", mood := some "happy" }
    sampleStore rfl rfl (by decide)

/-- C3 counterexample: on a store already holding an entry with id
`"5"`, an `addEntry` at timestamp 5 with a valid content/mood-only body
returns an entry whose id `"5"` occurs twice in the resulting
collection — the assigned id is not unique within the collection. -/
theorem C3_counterexample :
    ((addEntry 5 { content := some "x", mood := some "happy" } true clashStore).1.map
        Entry.id) = some "5"
    ∧ ((listEntries (addEntry 5 { content := some "x", mood := some "happy" }
        true clashStore).2).filter (fun e => e.id = "5")).length = 2 := by
  constructor
  · decide
  · decide

/-! ### C4 -/

/-- C4: `deleteEntry` is idempotent — with the writes committing, two
deletes of the same id produce the same store state as one — and for an
id absent from the collection it responds success and the collection
read back is unchanged. -/
theorem C4_delete_idempotent (eid : String) (s : StoreState) :
    (deleteEntry eid true (deleteEntry eid true s).2).2
      = (deleteEntry eid true s).2
    ∧ ((∀ e ∈ listEntries s, e.id ≠ eid) →
        (deleteEntry eid true s).1 = true
        ∧ listEntries (deleteEntry eid true s).2 = listEntries s) := by
  constructor
  · simp [deleteEntry, listEntries, List.filter_filter]
  · intro h
    refine ⟨rfl, ?_⟩
    have hred : listEntries (deleteEntry eid true s).2
        = (listEntries s).filter (fun e => e.id ≠ eid) := rfl
    rw [hred, List.filter_eq_self]
    intro a ha
    simpa using h a ha

/-- C4 witness: deleting the absent id `"zzz"` twice on `sampleStore`. -/
theorem C4_delete_idempotent_witness :
    ((deleteEntry "zzz" true (deleteEntry "zzz" true sampleStore).2).2
      = (deleteEntry "zzz" true sampleStore).2)
    ∧ ((deleteEntry "zzz" true sampleStore).1 = true
      ∧ listEntries (deleteEntry "zzz" true sampleStore).2
          = listEntries sampleStore) := by
  have h := C4_delete_idempotent "zzz" sampleStore
  exact ⟨h.1, h.2 (by decide)⟩

/-! ### C5 -/

/-- C5: updating an id absent from the collection responds `false`
(HTTP 404, no exception), attempts no write whatever the write outcome
would be, and leaves the store state — hence a subsequent
`listEntries` — unchanged. -/
theorem C5_update_missing_id (eid : String) (u : EntryPatch) (wOk : Bool)
    (s : StoreState) (h : ∀ e ∈ listEntries s, e.id ≠ eid) :
    updateEntry eid u wOk s = (false, s)
    ∧ listEntries (updateEntry eid u wOk s).2 = listEntries s := by
  have hnone := updateFirst_eq_none eid u (listEntries s) h
  have h1 : updateEntry eid u wOk s = (false, s) := by
    unfold updateEntry
    rw [hnone]
  exact ⟨h1, by rw [h1]⟩

/-- C5 witness: updating the absent id `"zzz"` on `sampleStore`. -/
theorem C5_update_missing_id_witness :
    updateEntry "zzz" { content := some "x" } true sampleStore
      = (false, sampleStore)
    ∧ listEntries (updateEntry "zzz" { content := some "x" } true sampleStore).2
      = listEntries sampleStore :=
  C5_update_missing_id "zzz" { content := some "x" } true sampleStore (by decide)

/-! ### C6 -/

/-- C6 counterexample: after persisting the settings object
`\x7b theme: "dark" \x7d` alone, `getSettings` returns it verbatim — its
`customTexts` is absent, not default-filled; the server's own hardcoded
default also carries no `customTexts`. -/
theorem C6_counterexample :
    (getSettings (saveSettings { theme := some "dark" } true emptyStore).2).customTexts
      = none
    ∧ serverDefaultSettings.customTexts = none :=
  ⟨rfl, rfl⟩

/-- C6 (amended): `getSettings` returns the persisted record verbatim
(no default merge; only when nothing is persisted does it fall back to
the three-field server default, which has no `customTexts`); the
field-by-field merge over defaults, including the nested `customTexts`
merge, happens client-side in `loadData`, so after
`saveSettings(\x7b theme: "dark" \x7d)` the client mirror — not the Store
response — has every `customTexts` slot default-filled. -/
theorem C6_settings_merge_happens_client_side (s : StoreState) (m : Mirror)
    (ef : Except Unit (List Entry)) :
    getSettings (saveSettings { theme := some "dark" } true s).2
      = { theme := some "dark" }
    ∧ (loadData m ef
        (Except.ok (getSettings (saveSettings { theme := some "dark" } true s).2))).settings
      = { defaultSettings with theme := "dark" } :=
  ⟨rfl, rfl⟩

/-! ### C7 -/

/-- C7: importing the payload obtained by re-parsing an exported
envelope leaves both observations — `listEntries` and `getSettings` —
unchanged, whatever the outcomes of the two import writes (the values
written equal the values already observable). -/
theorem C7_export_import_round_trip (now : Nat) (wE wS : Bool) (s : StoreState) :
    listEntries
        (importEndpoint (some (envelopeToPayload (exportSnapshot now s))) wE wS s).2
      = listEntries s
    ∧ getSettings
        (importEndpoint (some (envelopeToPayload (exportSnapshot now s))) wE wS s).2
      = getSettings s := by
  cases wE <;> cases wS <;>
    simp [importEndpoint, importSnapshot, envelopeToPayload, exportSnapshot,
      listEntries, getSettings]

/-! ### C8 -/

/-- C8 counterexample: a valid-JSON body with neither `entries` nor
`settings` keys is accepted — the endpoint answers 200 with no mutation
and the client surfaces the success alert, not an import-failure
message. -/
theorem C8_counterexample :
    importEndpoint (some { entries := none, settings := none }) true true sampleStore
      = (true, sampleStore)
    ∧ importAlertMessage
        (importEndpoint (some { entries := none, settings := none }) true true
          sampleStore).1
      = "数据导入成功！" :=
  ⟨rfl, rfl⟩

/-- C8 (amended): a body that is not valid JSON is rejected before the
handler runs (client sees `false`, failure alert, no mutation); a
valid-JSON body missing the envelope fields is answered 200 with no
mutation but the client surfaces the success alert. -/
theorem C8_malformed_and_shapeless_import (wE wS : Bool) (s : StoreState) :
    importEndpoint none wE wS s = (false, s)
    ∧ importAlertMessage (importEndpoint none wE wS s).1
        = "导入数据失败，请检查文件格式"
    ∧ importEndpoint (some { entries := none, settings := none }) wE wS s = (true, s)
    ∧ importAlertMessage
        (importEndpoint (some { entries := none, settings := none }) wE wS s).1
        = "数据导入成功！" :=
  ⟨rfl, rfl, rfl, rfl⟩

/-! ### C9 -/

/-- C9 counterexample: a failed entries fetch does not leave the prior
mirror intact — `loadData` on a mirror holding one entry replaces the
entries mirror with the empty list (the failure is swallowed inside
`DataService.getEntries`, which resolves with `[]`). -/
theorem C9_counterexample :
    (loadData sampleMirror (Except.error ()) (Except.ok serverDefaultSettings)).entries
      = []
    ∧ sampleMirror.entries ≠ [] :=
  ⟨rfl, by decide⟩

/-- C9 (amended): the mirror `loadData` produces is independent of the
prior mirror; on a failed entries fetch the entries mirror becomes the
empty list, and on a failed settings fetch the settings mirror becomes
the defaults (the client fallback merged over `defaultSettings`) — prior
state is overwritten, not preserved. -/
theorem C9_load_overwrites_mirror (m mAlt : Mirror) (ef : Except Unit (List Entry))
    (sf : Except Unit SettingsObj) :
    loadData m ef sf = loadData mAlt ef sf
    ∧ (loadData m (Except.error ()) sf).entries = []
    ∧ (loadData m ef (Except.error ())).settings = defaultSettings :=
  ⟨rfl, rfl, rfl⟩

/-! ### C10 -/

/-- C10: the bulk save endpoint replaces the durable entries collection
verbatim with the caller's array — no id/date assignment, no validation,
no merging — and a subsequent `listEntries` returns exactly that
array. -/
theorem C10_bulk_save_replaces_collection (es : List Entry) (s : StoreState) :
    saveEntries es true s = (true, { s with entriesFile := some es })
    ∧ listEntries (saveEntries es true s).2 = es :=
  ⟨rfl, rfl⟩
